import Mathlib

/-!
Verification development for the qadence execution facade
(`qadence/execution.py`): a shallow embedding of the type-directed
dispatch layer that normalizes heterogeneous call shapes into a
canonical circuit, resolves a backend, converts, embeds parameters and
delegates to the backend operations, together with theorems settling
the specified properties of that facade.

External collaborators (block DSL, register topology, concrete
simulator backends) are out of scope of the source slice and are
modelled abstractly: the backend is an opaque record of the four
capability operations, and the facade is parametric over a backend
factory.  Gradient tracking (the torch autograd context) is modelled
as a boolean effect flag on the result of each public entry point:
a backend call wrapped in the no_grad context manager records the flag
as false, while a call executed in the ambient context of the public
entry points records the torch default, gradient tracking enabled.
-/

/-- Endianness tag threaded from the call site to the backend
(source: qadence.utils.Endianness, default BIG). -/
inductive Endianness where
  | BIG
  | LITTLE
deriving DecidableEq, Repr

/-- Backend identifier resolved by the backend factory
(source: qadence.backend.BackendName; the facade defaults to PYQTORCH,
the reference state-vector backend). -/
inductive BackendName where
  | PYQTORCH
  | PULSER
  | other (s : String)
deriving DecidableEq, Repr

/-- Differentiation mode tag (source: qadence.types.DiffMode; the test
suite uses DiffMode.AD and DiffMode.GPSR, and the facade also accepts a
raw string).  The facade only ever tests the argument against None,
which is modelled by wrapping in Option. -/
inductive DiffMode where
  | AD
  | GPSR
  | named (s : String)
deriving DecidableEq, Repr

/-- Backend configuration options (source: qadence.backend.
BackendConfiguration or an untyped dict; opaque to the facade, which
forwards it to the factory). -/
structure BackendConfiguration where
  opts : List (String × Int)
deriving DecidableEq, Repr

/-- Block tree: a polymorphic node of the circuit operation tree.
Modelled from the spec: the block construction DSL (qadence.blocks) is
an out-of-scope collaborator not under src; the data model section
describes a block as a primitive gate with target qubits or a composite
of children composed sequentially (chain) or in parallel (kron). -/
inductive AbstractBlock where
  | primitive (name : String) (qubits : List Nat)
  | chain (a b : AbstractBlock)
  | kron (a b : AbstractBlock)
deriving DecidableEq, Repr

/-- The list of qubit indices referenced by the leaves of a block.
Modelled from the spec: a composite block references the qubits of its
children. -/
def AbstractBlock.qubitSupport : AbstractBlock → List Nat
  | .primitive _ qubits => qubits
  | .chain a b => a.qubitSupport ++ b.qubitSupport
  | .kron a b => a.qubitSupport ++ b.qubitSupport

/-- Qubit count of a block.  Modelled from the spec: qadence.blocks is
not under src; per the spec a register synthesized for a bare block is
sized to the highest referenced qubit index plus one, and each composite
spans the qubits of its children. -/
def AbstractBlock.n_qubits : AbstractBlock → Nat
  | .primitive _ qubits => qubits.foldr Nat.max 0 + 1
  | .chain a b => Nat.max a.n_qubits b.n_qubits
  | .kron a b => Nat.max a.n_qubits b.n_qubits

/-- Qubit register: the facade only ever constructs Register(n) from a
qubit count; geometric layout is an out-of-scope concern of the
register model. -/
structure Register where
  n_qubits : Nat
deriving DecidableEq, Repr

/-- Canonical circuit: a register together with a root block
(source: qadence.circuit.QuantumCircuit as used by the facade). -/
structure QuantumCircuit where
  register : Register
  block : AbstractBlock
deriving DecidableEq, Repr

/-- User-facing parameter values mapping, passed opaquely by the facade
to the embedding function (source: the values dict). -/
def Values : Type := List (String × Int)

/-- The empty values mapping, the default of the values argument. -/
def Values.empty : Values := []

/-- Conversion Result: the value object produced by a backend convert
call, bundling the backend-native circuit, optional backend-native
observable, the embedding function and the initial parameter mapping
(source: the conv object with fields circuit, observable, embedding_fn,
params). -/
structure ConversionResult (NCirc NObs Params : Type) where
  circuit : NCirc
  observable : Option NObs
  embedding_fn : Params → Values → Params
  params : Params

/-- Backend interface: the four capability operations every backend
exposes, with backend-native circuit, observable, parameter, tensor and
counter-list types opaque to the facade (source: the bknd object
returned by backend_factory, consumed at its call sites in
execution.py). -/
structure Backend (NCirc NObs Params T CL : Type) where
  convert : QuantumCircuit → Option (List AbstractBlock) → ConversionResult NCirc NObs Params
  run : NCirc → Params → Option T → Endianness → T
  sample : NCirc → Params → Nat → Option T → Endianness → CL
  expectation : NCirc → Option NObs → Params → Option T → Endianness → T

/-- Which backend operation a facade call delegates to. -/
inductive OpKind where
  | runOp
  | sampleOp
  | expectationOp
deriving DecidableEq, Repr

/-- Events performed by a facade entry point after input normalization,
in program order: backend resolution, conversion of the canonical
circuit (and observable list when present), application of the
embedding function, and delegation to a backend operation. -/
inductive Step where
  | resolveBackend (backend : BackendName) (configuration : Option BackendConfiguration)
  | convert (circuit : QuantumCircuit) (observable : Option (List AbstractBlock))
  | applyEmbedding
  | delegate (op : OpKind) (endianness : Endianness)
deriving DecidableEq, Repr

/-- Outcome of one facade call: the ordered trace of performed steps,
whether the delegated backend call executed under gradient tracking,
and the returned value. -/
structure FacadeResult (α : Type) where
  steps : List Step
  gradTracking : Bool
  value : α
deriving DecidableEq, Repr

/-- Models the torch no_grad context manager wrapped around a backend
call: the computation executes with gradient tracking disabled. -/
def noGrad {α : Type} (steps : List Step) (value : α) : FacadeResult α :=
  { steps := steps, gradTracking := false, value := value }

/-- Models a backend call executed in the ambient autograd context of a
public entry point, where the torch default has gradient tracking
enabled. -/
def ambientGrad {α : Type} (steps : List Step) (value : α) : FacadeResult α :=
  { steps := steps, gradTracking := true, value := value }

/-- Error raised by the singledispatch fallbacks when the first
positional argument matches none of the recognized input shapes (the
dispatch-shape error of the spec taxonomy; the source raises it as a
ValueError carrying the offending runtime type). -/
inductive ExecError where
  | unsupportedInput (msg : String)
deriving DecidableEq, Repr

/-- The first positional argument of a facade operation, resolved by
runtime type: one of the four recognized shapes, or a value of any
other runtime type (carried by the name of that type). -/
inductive CircuitInput where
  | circuit (c : QuantumCircuit)
  | registerBlock (r : Register) (b : AbstractBlock)
  | intBlock (n : Nat) (b : AbstractBlock)
  | block (b : AbstractBlock)
  | unsupported (typeName : String)
deriving DecidableEq, Repr

/-- The observable argument of expectation: a bare observable block or
a list of observable blocks (source signature:
Union[list[AbstractBlock], AbstractBlock]). -/
inductive ObservableInput where
  | single (b : AbstractBlock)
  | many (bs : List AbstractBlock)
deriving DecidableEq, Repr

/-- Observable normalization performed by the expectation circuit
overload (execution.py line 217): a bare observable is wrapped into a
singleton list, a list is used as-is. -/
def ObservableInput.normalize : ObservableInput → List AbstractBlock
  | .single b => [b]
  | .many bs => bs

namespace Execution

variable {NCirc NObs Params T CL : Type}

/-- run, QuantumCircuit overload (execution.py lines 50-67): resolve
the backend, convert the circuit, embed the parameters, and delegate to
the backend run inside a no_grad context. -/
def run (factory : BackendName → Option BackendConfiguration → Backend NCirc NObs Params T CL)
    (circuit : QuantumCircuit) (values : Values) (state : Option T)
    (backend : BackendName) (endianness : Endianness)
    (configuration : Option BackendConfiguration) : FacadeResult T :=
  let bknd := factory backend configuration
  let conv := bknd.convert circuit none
  noGrad
    [Step.resolveBackend backend configuration, Step.convert circuit none,
      Step.applyEmbedding, Step.delegate OpKind.runOp endianness]
    (bknd.run conv.circuit (conv.embedding_fn conv.params values) state endianness)

/-- run, (Register, AbstractBlock) overload (lines 70-72): wrap as a
QuantumCircuit and recurse. -/
def runReg (factory : BackendName → Option BackendConfiguration → Backend NCirc NObs Params T CL)
    (register : Register) (block : AbstractBlock) (values : Values) (state : Option T)
    (backend : BackendName) (endianness : Endianness)
    (configuration : Option BackendConfiguration) : FacadeResult T :=
  run factory (QuantumCircuit.mk register block) values state backend endianness configuration

/-- run, (int, AbstractBlock) overload (lines 75-77): build Register(n)
and recurse through the register overload. -/
def runInt (factory : BackendName → Option BackendConfiguration → Backend NCirc NObs Params T CL)
    (n_qubits : Nat) (block : AbstractBlock) (values : Values) (state : Option T)
    (backend : BackendName) (endianness : Endianness)
    (configuration : Option BackendConfiguration) : FacadeResult T :=
  runReg factory (Register.mk n_qubits) block values state backend endianness configuration

/-- run, bare AbstractBlock overload (lines 80-82): synthesize
Register(block.n_qubits) and recurse through the register overload. -/
def runBlock (factory : BackendName → Option BackendConfiguration → Backend NCirc NObs Params T CL)
    (block : AbstractBlock) (values : Values) (state : Option T)
    (backend : BackendName) (endianness : Endianness)
    (configuration : Option BackendConfiguration) : FacadeResult T :=
  runReg factory (Register.mk block.n_qubits) block values state backend endianness configuration

/-- run, singledispatch fallback plus registered overloads (lines
21-47): resolve the shape of the first positional argument, or fail on
an unrecognized runtime type before any backend work. -/
def runDispatch (factory : BackendName → Option BackendConfiguration → Backend NCirc NObs Params T CL)
    (input : CircuitInput) (values : Values) (state : Option T)
    (backend : BackendName) (endianness : Endianness)
    (configuration : Option BackendConfiguration) : Except ExecError (FacadeResult T) :=
  match input with
  | .circuit c => .ok (run factory c values state backend endianness configuration)
  | .registerBlock r b => .ok (runReg factory r b values state backend endianness configuration)
  | .intBlock n b => .ok (runInt factory n b values state backend endianness configuration)
  | .block b => .ok (runBlock factory b values state backend endianness configuration)
  | .unsupported typeName => .error (ExecError.unsupportedInput ("Cannot run " ++ typeName))

/-- sample, QuantumCircuit overload (lines 116-134): resolve the
backend, convert, embed, and delegate to the backend sample.  The
source performs the backend call directly, with no no_grad wrapper, so
it executes in the ambient autograd context. -/
def sample (factory : BackendName → Option BackendConfiguration → Backend NCirc NObs Params T CL)
    (circuit : QuantumCircuit) (values : Values) (state : Option T) (n_shots : Nat)
    (backend : BackendName) (endianness : Endianness)
    (configuration : Option BackendConfiguration) : FacadeResult CL :=
  let bknd := factory backend configuration
  let conv := bknd.convert circuit none
  ambientGrad
    [Step.resolveBackend backend configuration, Step.convert circuit none,
      Step.applyEmbedding, Step.delegate OpKind.sampleOp endianness]
    (bknd.sample conv.circuit (conv.embedding_fn conv.params values) n_shots state endianness)

/-- sample, (Register, AbstractBlock) overload (lines 137-139). -/
def sampleReg (factory : BackendName → Option BackendConfiguration → Backend NCirc NObs Params T CL)
    (register : Register) (block : AbstractBlock) (values : Values) (state : Option T)
    (n_shots : Nat) (backend : BackendName) (endianness : Endianness)
    (configuration : Option BackendConfiguration) : FacadeResult CL :=
  sample factory (QuantumCircuit.mk register block) values state n_shots backend endianness
    configuration

/-- sample, (int, AbstractBlock) overload (lines 142-144). -/
def sampleInt (factory : BackendName → Option BackendConfiguration → Backend NCirc NObs Params T CL)
    (n_qubits : Nat) (block : AbstractBlock) (values : Values) (state : Option T)
    (n_shots : Nat) (backend : BackendName) (endianness : Endianness)
    (configuration : Option BackendConfiguration) : FacadeResult CL :=
  sampleReg factory (Register.mk n_qubits) block values state n_shots backend endianness
    configuration

/-- sample, bare AbstractBlock overload (lines 147-150). -/
def sampleBlock (factory : BackendName → Option BackendConfiguration → Backend NCirc NObs Params T CL)
    (block : AbstractBlock) (values : Values) (state : Option T)
    (n_shots : Nat) (backend : BackendName) (endianness : Endianness)
    (configuration : Option BackendConfiguration) : FacadeResult CL :=
  sampleReg factory (Register.mk block.n_qubits) block values state n_shots backend endianness
    configuration

/-- sample, singledispatch fallback plus registered overloads (lines
85-113). -/
def sampleDispatch (factory : BackendName → Option BackendConfiguration → Backend NCirc NObs Params T CL)
    (input : CircuitInput) (values : Values) (state : Option T) (n_shots : Nat)
    (backend : BackendName) (endianness : Endianness)
    (configuration : Option BackendConfiguration) : Except ExecError (FacadeResult CL) :=
  match input with
  | .circuit c =>
      .ok (sample factory c values state n_shots backend endianness configuration)
  | .registerBlock r b =>
      .ok (sampleReg factory r b values state n_shots backend endianness configuration)
  | .intBlock n b =>
      .ok (sampleInt factory n b values state n_shots backend endianness configuration)
  | .block b =>
      .ok (sampleBlock factory b values state n_shots backend endianness configuration)
  | .unsupported typeName =>
      .error (ExecError.unsupportedInput ("Cannot sample from " ++ typeName))

/-- expectation, QuantumCircuit overload (lines 206-235): normalize a
bare observable into a singleton list, resolve the backend, convert
circuit and observable, embed, and delegate to the backend expectation;
the call runs inside no_grad exactly when diff_mode is None, and in the
ambient autograd context otherwise. -/
def expectation (factory : BackendName → Option BackendConfiguration → Backend NCirc NObs Params T CL)
    (circuit : QuantumCircuit) (observable : ObservableInput) (values : Values)
    (state : Option T) (backend : BackendName) (diff_mode : Option DiffMode)
    (endianness : Endianness)
    (configuration : Option BackendConfiguration) : FacadeResult T :=
  let obs := observable.normalize
  let bknd := factory backend configuration
  let conv := bknd.convert circuit (some obs)
  let steps := [Step.resolveBackend backend configuration, Step.convert circuit (some obs),
    Step.applyEmbedding, Step.delegate OpKind.expectationOp endianness]
  let value := bknd.expectation conv.circuit conv.observable
    (conv.embedding_fn conv.params values) state endianness
  match diff_mode with
  | none => noGrad steps value
  | some _ => ambientGrad steps value

/-- expectation, (Register, AbstractBlock) overload (lines 238-245). -/
def expectationReg (factory : BackendName → Option BackendConfiguration → Backend NCirc NObs Params T CL)
    (register : Register) (block : AbstractBlock) (observable : ObservableInput)
    (values : Values) (state : Option T) (backend : BackendName)
    (diff_mode : Option DiffMode) (endianness : Endianness)
    (configuration : Option BackendConfiguration) : FacadeResult T :=
  expectation factory (QuantumCircuit.mk register block) observable values state backend
    diff_mode endianness configuration

/-- expectation, (int, AbstractBlock) overload (lines 248-256): builds
Register(n_qubits) and the circuit directly. -/
def expectationInt (factory : BackendName → Option BackendConfiguration → Backend NCirc NObs Params T CL)
    (n_qubits : Nat) (block : AbstractBlock) (observable : ObservableInput)
    (values : Values) (state : Option T) (backend : BackendName)
    (diff_mode : Option DiffMode) (endianness : Endianness)
    (configuration : Option BackendConfiguration) : FacadeResult T :=
  expectation factory (QuantumCircuit.mk (Register.mk n_qubits) block) observable values state
    backend diff_mode endianness configuration

/-- expectation, bare AbstractBlock overload (lines 259-264). -/
def expectationBlock (factory : BackendName → Option BackendConfiguration → Backend NCirc NObs Params T CL)
    (block : AbstractBlock) (observable : ObservableInput)
    (values : Values) (state : Option T) (backend : BackendName)
    (diff_mode : Option DiffMode) (endianness : Endianness)
    (configuration : Option BackendConfiguration) : FacadeResult T :=
  expectation factory (QuantumCircuit.mk (Register.mk block.n_qubits) block) observable values
    state backend diff_mode endianness configuration

/-- expectation, singledispatch fallback plus registered overloads
(lines 153-264). -/
def expectationDispatch (factory : BackendName → Option BackendConfiguration → Backend NCirc NObs Params T CL)
    (input : CircuitInput) (observable : ObservableInput) (values : Values)
    (state : Option T) (backend : BackendName) (diff_mode : Option DiffMode)
    (endianness : Endianness)
    (configuration : Option BackendConfiguration) : Except ExecError (FacadeResult T) :=
  match input with
  | .circuit c =>
      .ok (expectation factory c observable values state backend diff_mode endianness
        configuration)
  | .registerBlock r b =>
      .ok (expectationReg factory r b observable values state backend diff_mode endianness
        configuration)
  | .intBlock n b =>
      .ok (expectationInt factory n b observable values state backend diff_mode endianness
        configuration)
  | .block b =>
      .ok (expectationBlock factory b observable values state backend diff_mode endianness
        configuration)
  | .unsupported typeName =>
      .error (ExecError.unsupportedInput ("Cannot execute " ++ typeName))

end Execution

/-- The steps actually performed by a dispatched call: an error from
the dispatch fallback carries no trace, so no backend work happened. -/
def performedSteps {α : Type} : Except ExecError (FacadeResult α) → List Step
  | .ok r => r.steps
  | .error _ => []

/-- Symbolic parameter expression over named parameters.  Modelled from
the spec: the parameter/expression collaborator (out of scope, not
under src) provides symbolic-expression nodes with a numeric-evaluation
entry point callable with a values mapping; a trainable reference is
substituted from the user values, while a non-trainable fixed parameter
keeps its baked-in value. -/
inductive ParamExpr where
  | lit (v : Int)
  | trainableRef (name : String)
  | fixedRef (name : String) (baked : Int)
  | add (a b : ParamExpr)
  | mul (a b : ParamExpr)
deriving DecidableEq, Repr

/-- First value bound to a name in a values mapping, or a fallback. -/
def Values.lookupD (values : Values) (name : String) (fallback : Int) : Int :=
  match values.find? (fun p => p.1 = name) with
  | some p => p.2
  | none => fallback

/-- Modelled from the spec: numeric evaluation of a symbolic expression
tree against a user values mapping (spec 4.4): trainable references are
substituted from the mapping, fixed parameters use their baked-in
value, and composite expressions are evaluated recursively. -/
def ParamExpr.eval (values : Values) : ParamExpr → Int
  | .lit v => v
  | .trainableRef name => values.lookupD name 0
  | .fixedRef name baked => values.lookupD name baked
  | .add a b => a.eval values + b.eval values
  | .mul a b => a.eval values * b.eval values

/-- Modelled from the spec: the embedding function produced by convert
(spec 4.4) - the concrete pyqtorch embedding is not under src.  It maps
the initial parameter mapping (named symbolic expressions baked into
the circuit) and the user-supplied values mapping to the full parameter
mapping the backend-native circuit requires, by evaluating every
expression against the user values. -/
def embed (params : List (String × ParamExpr)) (values : Values) : Values :=
  params.map (fun p => (p.1, p.2.eval values))

/-- A parameter sweep reusing one Conversion Result: the embedding is
applied pointwise to a list of values mappings. -/
def sweep (params : List (String × ParamExpr)) (valuesList : List Values) : List Values :=
  valuesList.map (embed params)

/-- Trivial concrete backend over unit carrier types, used to
instantiate the parametric facade on closed inputs. -/
def TrivBackend : Backend Unit Unit Unit Unit Unit where
  convert := fun _ _ =>
    { circuit := (), observable := some (), embedding_fn := fun p _ => p, params := () }
  run := fun _ _ _ _ => ()
  sample := fun _ _ _ _ _ => ()
  expectation := fun _ _ _ _ _ => ()

/-- Trivial backend factory resolving every identifier to the trivial
backend. -/
def trivFactory : BackendName → Option BackendConfiguration → Backend Unit Unit Unit Unit Unit :=
  fun _ _ => TrivBackend

/-- Concrete two-qubit block used by closed witness statements. -/
def wBlock : AbstractBlock :=
  AbstractBlock.chain (AbstractBlock.primitive "RX" [0]) (AbstractBlock.primitive "RY" [1])

/-- Concrete observable used by closed witness statements. -/
def wObs : ObservableInput := ObservableInput.single (AbstractBlock.primitive "Z" [0])

/-- Signature default of the values argument: an empty mapping. -/
def defaultValues : Values := Values.empty

/-- Signature default of the state argument: None, interpreted by every
backend as the ground (all-zero) state. -/
def defaultState {T : Type} : Option T := none

/-- Signature default of the backend argument: the reference
state-vector backend. -/
def defaultBackendName : BackendName := BackendName.PYQTORCH

/-- Signature default of the endianness argument. -/
def defaultEndianness : Endianness := Endianness.BIG

/-- Signature default of the configuration argument: None. -/
def defaultConfiguration : Option BackendConfiguration := none

/-- Signature default of the n_shots argument of sample. -/
def defaultNShots : Nat := 100

/-- Signature default of the diff_mode argument of expectation:
None. -/
def defaultDiffMode : Option DiffMode := none

/-- run called with only its circuit argument, every keyword left at
its signature default (execution.py lines 50-57). -/
def runWithDefaults {NCirc NObs Params T CL : Type}
    (factory : BackendName → Option BackendConfiguration → Backend NCirc NObs Params T CL)
    (circuit : QuantumCircuit) : FacadeResult T :=
  Execution.run factory circuit defaultValues defaultState defaultBackendName
    defaultEndianness defaultConfiguration

/-- sample called with only its circuit argument, every keyword left at
its signature default (execution.py lines 116-124). -/
def sampleWithDefaults {NCirc NObs Params T CL : Type}
    (factory : BackendName → Option BackendConfiguration → Backend NCirc NObs Params T CL)
    (circuit : QuantumCircuit) : FacadeResult CL :=
  Execution.sample factory circuit defaultValues defaultState defaultNShots
    defaultBackendName defaultEndianness defaultConfiguration

/-- expectation called with only its circuit and observable arguments,
every keyword left at its signature default (execution.py lines
206-215). -/
def expectationWithDefaults {NCirc NObs Params T CL : Type}
    (factory : BackendName → Option BackendConfiguration → Backend NCirc NObs Params T CL)
    (circuit : QuantumCircuit) (observable : ObservableInput) : FacadeResult T :=
  Execution.expectation factory circuit observable defaultValues defaultState
    defaultBackendName defaultDiffMode defaultEndianness defaultConfiguration

/-- Folding max from an arbitrary initial value equals the max of the
zero-based fold and that initial value. -/
theorem foldr_max_init (l : List Nat) (n : Nat) :
    List.foldr Nat.max n l = Nat.max (List.foldr Nat.max 0 l) n := by
  induction l with
  | nil => simp
  | cons x xs ih => simp [ih, Nat.max_assoc]

/-- The qubit count of a block is the maximum referenced qubit index
plus one. -/
theorem n_qubits_eq_max_support_succ (b : AbstractBlock) :
    b.n_qubits = List.foldr Nat.max 0 b.qubitSupport + 1 := by
  induction b with
  | primitive name qubits => rfl
  | chain a c iha ihc =>
      show Nat.max a.n_qubits c.n_qubits =
        List.foldr Nat.max 0 (a.qubitSupport ++ c.qubitSupport) + 1
      rw [List.foldr_append, foldr_max_init, iha, ihc]
      exact Nat.add_max_add_right ..
  | kron a c iha ihc =>
      show Nat.max a.n_qubits c.n_qubits =
        List.foldr Nat.max 0 (a.qubitSupport ++ c.qubitSupport) + 1
      rw [List.foldr_append, foldr_max_init, iha, ihc]
      exact Nat.add_max_add_right ..

/-- Claim C1: dispatch equivalence - with identical keyword arguments,
expectation on the circuit built from a register and block equals
expectation on the (register, block) shape and on the (n_qubits, block)
shape whenever the register matches the default register for n_qubits,
and moreover equals expectation on the bare-block shape when n_qubits
matches the block qubit count: all four input shapes normalize to the
same canonical circuit and delegate identically. -/
theorem C1_dispatch_equivalence {NCirc NObs Params T CL : Type}
    (factory : BackendName → Option BackendConfiguration → Backend NCirc NObs Params T CL)
    (r : Register) (n : Nat) (b : AbstractBlock) (obs : ObservableInput)
    (values : Values) (state : Option T) (backend : BackendName)
    (diff_mode : Option DiffMode) (endianness : Endianness)
    (configuration : Option BackendConfiguration)
    (h : r = Register.mk n) :
    Execution.expectationReg factory r b obs values state backend diff_mode endianness
        configuration =
      Execution.expectation factory (QuantumCircuit.mk r b) obs values state backend
        diff_mode endianness configuration ∧
    Execution.expectationInt factory n b obs values state backend diff_mode endianness
        configuration =
      Execution.expectation factory (QuantumCircuit.mk r b) obs values state backend
        diff_mode endianness configuration ∧
    (n = b.n_qubits →
      Execution.expectationBlock factory b obs values state backend diff_mode endianness
          configuration =
        Execution.expectation factory (QuantumCircuit.mk r b) obs values state backend
          diff_mode endianness configuration) := by
  subst h
  refine ⟨rfl, rfl, fun hn => ?_⟩
  subst hn
  rfl

/-- Witness for C1: the two-qubit register matches the default register
for two qubits and for the qubit count of the witness block, so all
four expectation shapes agree on the trivial backend. -/
theorem C1_dispatch_equivalence_witness :
    Execution.expectationReg trivFactory (Register.mk 2) wBlock wObs Values.empty none
        BackendName.PYQTORCH none Endianness.BIG none =
      Execution.expectation trivFactory (QuantumCircuit.mk (Register.mk 2) wBlock) wObs
        Values.empty none BackendName.PYQTORCH none Endianness.BIG none ∧
    Execution.expectationInt trivFactory 2 wBlock wObs Values.empty none
        BackendName.PYQTORCH none Endianness.BIG none =
      Execution.expectation trivFactory (QuantumCircuit.mk (Register.mk 2) wBlock) wObs
        Values.empty none BackendName.PYQTORCH none Endianness.BIG none ∧
    (2 = wBlock.n_qubits →
      Execution.expectationBlock trivFactory wBlock wObs Values.empty none
          BackendName.PYQTORCH none Endianness.BIG none =
        Execution.expectation trivFactory (QuantumCircuit.mk (Register.mk 2) wBlock) wObs
          Values.empty none BackendName.PYQTORCH none Endianness.BIG none) :=
  C1_dispatch_equivalence trivFactory (Register.mk 2) 2 wBlock wObs Values.empty none
    BackendName.PYQTORCH none Endianness.BIG none rfl

/-- Claim C2 as stated is false on the code at a concrete input: the
sample circuit overload performs its backend call directly, with no
no_grad wrapper, so the call does not execute with gradient tracking
disabled. -/
theorem C2_counterexample :
    ¬ ((Execution.sample trivFactory (QuantumCircuit.mk (Register.mk 2) wBlock) Values.empty
        none 100 BackendName.PYQTORCH Endianness.BIG none).gradTracking = false) := by
  decide

/-- Claim C2 amended: for every input shape and every parameter-values
mapping, run executes its backend call with gradient tracking disabled
unconditionally, while sample delegates its backend call without a
no_grad wrapper and therefore executes it in the ambient gradient
context of its caller (gradient tracking enabled at the public entry
points). -/
theorem C2_amended_run_nograd_sample_ambient {NCirc NObs Params T CL : Type}
    (factory : BackendName → Option BackendConfiguration → Backend NCirc NObs Params T CL)
    (circuit : QuantumCircuit) (register : Register) (n : Nat) (block : AbstractBlock)
    (values : Values) (state : Option T) (n_shots : Nat) (backend : BackendName)
    (endianness : Endianness) (configuration : Option BackendConfiguration) :
    (Execution.run factory circuit values state backend endianness
        configuration).gradTracking = false ∧
    (Execution.runReg factory register block values state backend endianness
        configuration).gradTracking = false ∧
    (Execution.runInt factory n block values state backend endianness
        configuration).gradTracking = false ∧
    (Execution.runBlock factory block values state backend endianness
        configuration).gradTracking = false ∧
    (Execution.sample factory circuit values state n_shots backend endianness
        configuration).gradTracking = true ∧
    (Execution.sampleReg factory register block values state n_shots backend endianness
        configuration).gradTracking = true ∧
    (Execution.sampleInt factory n block values state n_shots backend endianness
        configuration).gradTracking = true ∧
    (Execution.sampleBlock factory block values state n_shots backend endianness
        configuration).gradTracking = true :=
  ⟨rfl, rfl, rfl, rfl, rfl, rfl, rfl, rfl⟩

/-- Claim C3: expectation executes its backend call under no_grad
exactly when diff_mode is None (the default), so gradient tracking is
enabled if and only if a non-null diff_mode is supplied by the
caller. -/
theorem C3_expectation_grad_iff_diff_mode {NCirc NObs Params T CL : Type}
    (factory : BackendName → Option BackendConfiguration → Backend NCirc NObs Params T CL)
    (circuit : QuantumCircuit) (observable : ObservableInput) (values : Values)
    (state : Option T) (backend : BackendName) (diff_mode : Option DiffMode)
    (endianness : Endianness) (configuration : Option BackendConfiguration) :
    (Execution.expectation factory circuit observable values state backend diff_mode
        endianness configuration).gradTracking = diff_mode.isSome := by
  cases diff_mode <;> rfl

/-- Claim C4: a first positional argument whose runtime type matches
none of the four recognized shapes makes run, sample and expectation
fail with the dispatch-shape error raised by the singledispatch
fallback (carrying the offending type), and no backend resolution,
conversion, embedding or delegation step is performed. -/
theorem C4_unsupported_input {NCirc NObs Params T CL : Type}
    (factory : BackendName → Option BackendConfiguration → Backend NCirc NObs Params T CL)
    (typeName : String) (obs : ObservableInput) (values : Values) (state : Option T)
    (n_shots : Nat) (backend : BackendName) (diff_mode : Option DiffMode)
    (endianness : Endianness) (configuration : Option BackendConfiguration) :
    Execution.runDispatch factory (CircuitInput.unsupported typeName) values state backend
        endianness configuration =
      Except.error (ExecError.unsupportedInput ("Cannot run " ++ typeName)) ∧
    Execution.sampleDispatch factory (CircuitInput.unsupported typeName) values state
        n_shots backend endianness configuration =
      Except.error (ExecError.unsupportedInput ("Cannot sample from " ++ typeName)) ∧
    Execution.expectationDispatch factory (CircuitInput.unsupported typeName) obs values
        state backend diff_mode endianness configuration =
      Except.error (ExecError.unsupportedInput ("Cannot execute " ++ typeName)) ∧
    performedSteps (Execution.runDispatch factory (CircuitInput.unsupported typeName) values
        state backend endianness configuration) = [] ∧
    performedSteps (Execution.sampleDispatch factory (CircuitInput.unsupported typeName)
        values state n_shots backend endianness configuration) = [] ∧
    performedSteps (Execution.expectationDispatch factory
        (CircuitInput.unsupported typeName) obs values state backend diff_mode endianness
        configuration) = [] :=
  ⟨rfl, rfl, rfl, rfl, rfl, rfl⟩

/-- Claim C5: a bare block passed as the sole positional circuit
argument to run, sample or expectation is executed on the circuit built
from the synthesized default register Register(block.n_qubits), and
that register is sized to the highest qubit index referenced by the
block plus one. -/
theorem C5_block_shape_default_register {NCirc NObs Params T CL : Type}
    (factory : BackendName → Option BackendConfiguration → Backend NCirc NObs Params T CL)
    (block : AbstractBlock) (obs : ObservableInput) (values : Values) (state : Option T)
    (n_shots : Nat) (backend : BackendName) (diff_mode : Option DiffMode)
    (endianness : Endianness) (configuration : Option BackendConfiguration) :
    Execution.runBlock factory block values state backend endianness configuration =
      Execution.run factory (QuantumCircuit.mk (Register.mk block.n_qubits) block) values
        state backend endianness configuration ∧
    Execution.sampleBlock factory block values state n_shots backend endianness
        configuration =
      Execution.sample factory (QuantumCircuit.mk (Register.mk block.n_qubits) block)
        values state n_shots backend endianness configuration ∧
    Execution.expectationBlock factory block obs values state backend diff_mode endianness
        configuration =
      Execution.expectation factory (QuantumCircuit.mk (Register.mk block.n_qubits) block)
        obs values state backend diff_mode endianness configuration ∧
    (Register.mk block.n_qubits).n_qubits = List.foldr Nat.max 0 block.qubitSupport + 1 :=
  ⟨rfl, rfl, rfl, n_qubits_eq_max_support_succ block⟩

/-- Claim C6: after input normalization each operation performs exactly
these steps in this order - resolve the backend instance from the
backend identifier and configuration, convert the canonical circuit
(and the normalized observable list for expectation), apply the
embedding function produced by convert to the initial parameters and
the user-supplied values, and delegate to the corresponding backend
operation with the embedded parameters, state and endianness. -/
theorem C6_pipeline_order {NCirc NObs Params T CL : Type}
    (factory : BackendName → Option BackendConfiguration → Backend NCirc NObs Params T CL)
    (circuit : QuantumCircuit) (observable : ObservableInput) (values : Values)
    (state : Option T) (n_shots : Nat) (backend : BackendName)
    (diff_mode : Option DiffMode) (endianness : Endianness)
    (configuration : Option BackendConfiguration) :
    (Execution.run factory circuit values state backend endianness configuration).steps =
      [Step.resolveBackend backend configuration, Step.convert circuit none,
        Step.applyEmbedding, Step.delegate OpKind.runOp endianness] ∧
    (Execution.run factory circuit values state backend endianness configuration).value =
      (factory backend configuration).run
        ((factory backend configuration).convert circuit none).circuit
        (((factory backend configuration).convert circuit none).embedding_fn
          ((factory backend configuration).convert circuit none).params values)
        state endianness ∧
    (Execution.sample factory circuit values state n_shots backend endianness
        configuration).steps =
      [Step.resolveBackend backend configuration, Step.convert circuit none,
        Step.applyEmbedding, Step.delegate OpKind.sampleOp endianness] ∧
    (Execution.sample factory circuit values state n_shots backend endianness
        configuration).value =
      (factory backend configuration).sample
        ((factory backend configuration).convert circuit none).circuit
        (((factory backend configuration).convert circuit none).embedding_fn
          ((factory backend configuration).convert circuit none).params values)
        n_shots state endianness ∧
    (Execution.expectation factory circuit observable values state backend diff_mode
        endianness configuration).steps =
      [Step.resolveBackend backend configuration,
        Step.convert circuit (some observable.normalize),
        Step.applyEmbedding, Step.delegate OpKind.expectationOp endianness] ∧
    (Execution.expectation factory circuit observable values state backend diff_mode
        endianness configuration).value =
      (factory backend configuration).expectation
        ((factory backend configuration).convert circuit
          (some observable.normalize)).circuit
        ((factory backend configuration).convert circuit
          (some observable.normalize)).observable
        (((factory backend configuration).convert circuit
            (some observable.normalize)).embedding_fn
          ((factory backend configuration).convert circuit
            (some observable.normalize)).params values)
        state endianness := by
  cases diff_mode <;> exact ⟨rfl, rfl, rfl, rfl, rfl, rfl⟩

/-- Claim C8: the exposed operations carry exactly the stated defaults
- empty values mapping, None state (the ground state at the backend),
the reference state-vector backend PYQTORCH, BIG endianness, None
configuration, 100 shots for sample, and None diff_mode for expectation
- and calling an operation without these keywords behaves identically
to supplying the stated defaults explicitly. -/
theorem C8_signature_defaults {NCirc NObs Params T CL : Type}
    (factory : BackendName → Option BackendConfiguration → Backend NCirc NObs Params T CL)
    (circuit : QuantumCircuit) (observable : ObservableInput) :
    runWithDefaults factory circuit =
      Execution.run factory circuit Values.empty none BackendName.PYQTORCH Endianness.BIG
        none ∧
    sampleWithDefaults factory circuit =
      Execution.sample factory circuit Values.empty none 100 BackendName.PYQTORCH
        Endianness.BIG none ∧
    expectationWithDefaults factory circuit observable =
      Execution.expectation factory circuit observable Values.empty none
        BackendName.PYQTORCH none Endianness.BIG none ∧
    defaultValues = Values.empty ∧ (defaultState : Option T) = none ∧
    defaultBackendName = BackendName.PYQTORCH ∧ defaultEndianness = Endianness.BIG ∧
    defaultConfiguration = none ∧ defaultNShots = 100 ∧ defaultDiffMode = none :=
  ⟨rfl, rfl, rfl, rfl, rfl, rfl, rfl, rfl, rfl, rfl⟩

/-- Claim C9: the embedding function is idempotent and side-effect-free
- calling it twice with identical arguments yields identical outputs,
and reusing one Conversion Result across a repeated parameter sweep
reproduces the same per-call results with no hidden state. -/
theorem C9_embed_idempotent (params : List (String × ParamExpr)) (values : Values)
    (valuesList : List Values) :
    embed params values = embed params values ∧
    sweep params (valuesList ++ valuesList) =
      sweep params valuesList ++ sweep params valuesList := by
  refine ⟨rfl, ?_⟩
  simp [sweep]

/-- Claim C10: expectation on a bare observable equals expectation on
its singleton list with identical keyword arguments - the facade
normalizes a non-list observable into a singleton list before calling
convert. -/
theorem C10_observable_singleton {NCirc NObs Params T CL : Type}
    (factory : BackendName → Option BackendConfiguration → Backend NCirc NObs Params T CL)
    (circuit : QuantumCircuit) (o : AbstractBlock) (values : Values) (state : Option T)
    (backend : BackendName) (diff_mode : Option DiffMode) (endianness : Endianness)
    (configuration : Option BackendConfiguration) :
    Execution.expectation factory circuit (ObservableInput.single o) values state backend
        diff_mode endianness configuration =
      Execution.expectation factory circuit (ObservableInput.many [o]) values state backend
        diff_mode endianness configuration := by
  cases diff_mode <;> rfl
